import Mathlib

/-!
Shallow embedding of the yerttle-create-aws pipeline (four AWS Lambda
handlers coordinating transcription and Comprehend text analytics through
an S3 bucket), together with proofs of the specification claims.

Python strings are modelled by Lean `String` (a structure over `List Char`,
matching Python's sequence-of-code-points view).  The S3 object store is an
association list from (bucket, key) to parsed JSON documents: `put_object`
with `json.dumps` followed by `get_object` with `json.loads` round-trips,
so the store holds the parsed value directly.  External collaborators
(Comprehend, Transcribe, the JSON library, the wall clock) are explicit
environment records of functions; a call that may raise an exception is a
function returning `Option`, with `none` standing for the raised exception.
-/

namespace YerttleAws

/-! ## Python string primitives (modelled over `String.data`) -/

/-- UTF-8 size in bytes of one character, as for Python `str.encode('utf-8')`. -/
def charUtf8Size (c : Char) : Nat :=
  if c.val ≤ 0x7F then 1
  else if c.val ≤ 0x7FF then 2
  else if c.val ≤ 0xFFFF then 3
  else 4

/-- Python `len(s.encode('utf-8'))`. -/
def utf8Len (s : String) : Nat :=
  (s.data.map charUtf8Size).sum

/-- Python `sep.join` / `str.split` helper: split a character list at a
separator character.  Always returns a nonempty list of segments. -/
def sepSplit (c : Char) : List Char → List (List Char)
  | [] => [[]]
  | x :: xs =>
    match sepSplit c xs with
    | h :: t => if x = c then [] :: h :: t else (x :: h) :: t
    | [] => [[x]]

/-- Python `s.split(c)` for a one-character separator. -/
def pySplit (s : String) (c : Char) : List String :=
  (sepSplit c s.data).map String.mk

/-- Python `s.split(c)[-1]`: the segment after the last separator. -/
def lastComponent (s : String) (c : Char) : String :=
  ⟨(s.data.reverse.takeWhile (fun x => ¬ x = c)).reverse⟩

/-- Python `s.split(c)[0]`: the segment before the first separator. -/
def firstComponent (s : String) (c : Char) : String :=
  ⟨s.data.takeWhile (fun x => ¬ x = c)⟩

/-- Python `s.rsplit(c, 1)[0]`: everything before the last separator
(or the whole string when the separator is absent). -/
def pyRsplitHead (s : String) (c : Char) : String :=
  if s.data.contains c then
    ⟨(((s.data.reverse).dropWhile (fun x => ¬ x = c)).drop 1).reverse⟩
  else s

/-- Python `s.startswith(p)`. -/
def pyStartsWith (s p : String) : Bool :=
  p.data.isPrefixOf s.data

/-- Python `s.endswith(p)`. -/
def pyEndsWith (s p : String) : Bool :=
  p.data.isSuffixOf s.data

/-- Python `small in big` on strings. -/
def strContains (big small : String) : Bool :=
  decide (small.data <:+: big.data)

/-- Python whitespace test for `str.strip()` (the characters that occur in
this system's data). -/
def isPySpace (c : Char) : Bool :=
  c = ' ' ∨ c = '\n' ∨ c = '\t' ∨ c = '\r'

/-- Python `s.strip()`. -/
def pyStrip (s : String) : String :=
  ⟨((s.data.dropWhile isPySpace).reverse.dropWhile isPySpace).reverse⟩

/-- Core of Python `s.replace(pat, rep)` for a nonempty pattern: scan left to
right, replacing every non-overlapping occurrence.  The fuel argument is
instantiated with the length of the scanned list, which bounds the number of
steps whenever the pattern is nonempty. -/
def pyReplaceCore (pat rep : List Char) : Nat → List Char → List Char
  | 0, s => s
  | _ + 1, [] => []
  | fuel + 1, c :: rest =>
    if pat.isPrefixOf (c :: rest) then
      rep ++ pyReplaceCore pat rep fuel ((c :: rest).drop pat.length)
    else
      c :: pyReplaceCore pat rep fuel rest

/-- Python `s.replace(pat, rep)` (for the nonempty patterns used in this
code base). -/
def pyReplace (s pat rep : String) : String :=
  ⟨pyReplaceCore pat.data rep.data s.data.length s.data⟩

/-- `urlparse(uri)` followed by `netloc` / `path.lstrip('/')`, for the
`s3://bucket/key...` URIs this system passes around. -/
def parseS3Uri (u : String) : String × String :=
  if pyStartsWith u "s3://" then
    let rest : List Char := u.data.drop 5
    (⟨rest.takeWhile (fun x => ¬ x = '/')⟩,
     ⟨(rest.dropWhile (fun x => ¬ x = '/')).drop 1⟩)
  else
    ("", ⟨u.data.dropWhile (fun x => x = '/')⟩)

/-! ## JSON documents -/

/-- Parsed JSON values, as produced by `json.loads`.  Numbers are modelled
as integers (the fields this system reads and writes are counts and byte
lengths). -/
inductive Json where
  | null : Json
  | bool (b : Bool) : Json
  | num (n : Int) : Json
  | str (s : String) : Json
  | arr (elems : List Json) : Json
  | obj (fields : List (String × Json)) : Json

/-- Lookup in a JSON object's field list (Python `dict` keys are unique, so
first match is the match). -/
def jlookup : List (String × Json) → String → Json → Json
  | [], _, d => d
  | (k', v) :: rest, k, d => if k' = k then v else jlookup rest k d

/-- Python `d.get(k, default)` on a parsed JSON value. -/
def jget (j : Json) (k : String) (d : Json) : Json :=
  match j with
  | .obj fields => jlookup fields k d
  | _ => d

/-- Python `len(...)` on the JSON values it is applied to in this code. -/
def jlen : Json → Nat
  | .arr xs => xs.length
  | .obj fields => fields.length
  | .str s => s.data.length
  | _ => 0

/-! ## The S3 object store

One global store for all buckets: an association list from (bucket, key)
to the parsed JSON document stored there.  `put_object` prepends, so a
lookup finds the most recent write (last-write-wins). -/

abbrev Store := List ((String × String) × Json)

/-- `s3_client.put_object(Bucket=b, Key=k, Body=json.dumps(v))`. -/
def s3_put_object (st : Store) (b k : String) (v : Json) : Store :=
  ((b, k), v) :: st

/-- `s3_client.get_object(Bucket=b, Key=k)` followed by `json.loads`;
`none` models the raised exception when the object is absent. -/
def s3_get_object : Store → String → String → Option Json
  | [], _, _ => none
  | ((b', k'), v) :: rest, b, k =>
    if b' = b ∧ k' = k then some v else s3_get_object rest b k

/-- `object_exists` from comprehend_job_completion/app.py: `head_object`
inside try/except, `True` iff the object is there. -/
def object_exists (st : Store) (b k : String) : Bool :=
  (s3_get_object st b k).isSome

/-- `read_json_from_s3` from comprehend_job_completion/app.py: read and
parse, returning `{}` on any failure. -/
def read_json_from_s3 (st : Store) (b k : String) : Json :=
  (s3_get_object st b k).getD (Json.obj [])

/-! ## Shared configuration

Each handler reads `BUCKET_NAME` (and the other settings) from its
environment variables; the deployed stack configures one shared bucket for
all four functions, which is what the cross-handler claims are about, so the
model uses one shared constant (the per-file fallback literals differ in
one underscore but are dead defaults under that deployment). -/

def BUCKET_NAME : String := "yerttle-tours"

def SENTIMENT_PREFIX : String := "sentiment/"

def LANGUAGE_CODE : String := "en-US"

/-! ## Analysis Router — src/sentiment_analysis/app.py -/

namespace SentimentAnalysis

/-- `SYNC_API_LIMIT_BYTES = 5000`: the Comprehend synchronous API limit. -/
def SYNC_API_LIMIT_BYTES : Nat := 5000

/-- External collaborators of the Analysis Router: the wall clock, URL
decoding, and the Comprehend client.  Each Comprehend call returns `none`
when it raises.  Synchronous detections yield the response dict; job starts
yield the `JobId` field of the response. -/
structure Env where
  nowStamp : String
  nowIso : String
  unquotePlus : String → String
  detect_sentiment : String → Option Json
  detect_entities : String → Option Json
  detect_key_phrases : String → Option Json
  start_sentiment_detection_job : String → Option String
  start_entities_detection_job : String → Option String
  start_key_phrases_detection_job : String → Option String

/-- The S3-object-created EventBridge event fields this handler reads
(`detail.bucket.name` and `detail.object.key`; a missing field is the empty
string, matching `.get(..., '')`). -/
structure S3Event where
  bucketName : String
  objectKey : String

/-- Observable outcome of one handler invocation: HTTP-style status code,
the resulting store, the Comprehend job names whose start was attempted, and
the synchronous detection calls attempted (in order). -/
structure Outcome where
  statusCode : Nat
  store : Store
  jobStartsAttempted : List String
  syncDetectCalls : List String

/-- `transcription_data.get('results', {}).get('transcripts', [{}])[0].get('transcript', '')`;
`none` models the exceptions Python raises on a malformed document (empty
`transcripts` list, non-dict element, non-string transcript reaching
`.encode`), which the outer handler turns into a 500. -/
def extractTranscriptText (j : Json) : Option String :=
  match jget (jget j "results" (.obj [])) "transcripts" (.arr [.obj []]) with
  | .arr (e :: _) =>
    match e with
    | .obj _ =>
      match jget e "transcript" (.str "") with
      | .str s => some s
      | _ => none
    | _ => none
  | _ => none

/-- `process_synchronous_analysis`: three synchronous Comprehend calls, one
aggregate result written to S3.  A raised detection call aborts with 500 and
no write. -/
def process_synchronous_analysis (env : Env)
    (text analysis_id transcription_key bucket_name : String)
    (st : Store) : Outcome :=
  match env.detect_sentiment text with
  | none => ⟨500, st, [], ["detect_sentiment"]⟩
  | some sentiment_response =>
    match env.detect_entities text with
    | none => ⟨500, st, [], ["detect_sentiment", "detect_entities"]⟩
    | some entities_response =>
      match env.detect_key_phrases text with
      | none => ⟨500, st, [], ["detect_sentiment", "detect_entities", "detect_key_phrases"]⟩
      | some key_phrases_response =>
        let analysis_results : Json := Json.obj
          [ ("analysisId", .str analysis_id),
            ("transcriptionFile", .str ("s3://" ++ bucket_name ++ "/" ++ transcription_key)),
            ("timestamp", .str env.nowIso),
            ("textLength", .num text.data.length),
            ("textBytes", .num (utf8Len text)),
            ("analysisType", .str "synchronous"),
            ("sentiment", Json.obj
              [ ("Sentiment", jget sentiment_response "Sentiment" Json.null),
                ("SentimentScore", jget sentiment_response "SentimentScore" (.obj [])) ]),
            ("entities", Json.obj
              [ ("Entities", jget entities_response "Entities" (.arr [])),
                ("Count", .num (jlen (jget entities_response "Entities" (.arr [])))) ]),
            ("keyPhrases", Json.obj
              [ ("KeyPhrases", jget key_phrases_response "KeyPhrases" (.arr [])),
                ("Count", .num (jlen (jget key_phrases_response "KeyPhrases" (.arr [])))) ]),
            ("metadata", Json.obj
              [ ("languageCode", .str LANGUAGE_CODE),
                ("processingTimestamp", .str env.nowIso) ]) ]
        let output_key := SENTIMENT_PREFIX ++ analysis_id ++ "-analysis.json"
        ⟨200, s3_put_object st BUCKET_NAME output_key analysis_results,
          [], ["detect_sentiment", "detect_entities", "detect_key_phrases"]⟩

/-- `process_asynchronous_analysis`: stage the text, attempt all three job
starts (each failure only drops that facet's id from the metadata), write
the metadata record, report 202. -/
def process_asynchronous_analysis (env : Env)
    (text analysis_id transcription_key bucket_name : String)
    (st : Store) : Outcome :=
  let input_key := "comprehend-input/" ++ analysis_id ++ ".txt"
  let st1 := s3_put_object st BUCKET_NAME input_key (.str text)
  let input_s3_uri := "s3://" ++ BUCKET_NAME ++ "/" ++ input_key
  let output_s3_uri := "s3://" ++ BUCKET_NAME ++ "/comprehend-output/" ++ analysis_id ++ "/"
  let sentiment_job_name := "sentiment-" ++ analysis_id
  let entities_job_name := "entities-" ++ analysis_id
  let key_phrases_job_name := "key-phrases-" ++ analysis_id
  let job_ids : List (String × Json) :=
    (match env.start_sentiment_detection_job sentiment_job_name with
     | some j => [("sentiment", Json.str j)]
     | none => []) ++
    (match env.start_entities_detection_job entities_job_name with
     | some j => [("entities", Json.str j)]
     | none => []) ++
    (match env.start_key_phrases_detection_job key_phrases_job_name with
     | some j => [("keyPhrases", Json.str j)]
     | none => [])
  let async_metadata : Json := Json.obj
    [ ("analysisId", .str analysis_id),
      ("transcriptionFile", .str ("s3://" ++ bucket_name ++ "/" ++ transcription_key)),
      ("timestamp", .str env.nowIso),
      ("analysisType", .str "asynchronous"),
      ("textLength", .num text.data.length),
      ("textBytes", .num (utf8Len text)),
      ("inputLocation", .str input_s3_uri),
      ("outputLocation", .str output_s3_uri),
      ("jobIds", .obj job_ids),
      ("status", .str "IN_PROGRESS") ]
  let metadata_key := SENTIMENT_PREFIX ++ analysis_id ++ "-metadata.json"
  ⟨202, s3_put_object st1 BUCKET_NAME metadata_key async_metadata,
    [sentiment_job_name, entities_job_name, key_phrases_job_name], []⟩

/-- The analysis id derived from the transcript's object key:
`object_key.split('/')[-1].rsplit('.', 1)[0]` plus the UTC timestamp. -/
def analysisIdOf (env : Env) (object_key : String) : String :=
  pyRsplitHead (lastComponent object_key '/') '.' ++ "-" ++ env.nowStamp

/-- `lambda_handler` of the Analysis Router: parse the event, read the
transcript, extract the text, and route on the UTF-8 byte length. -/
def lambda_handler (env : Env) (ev : S3Event) (st : Store) : Outcome :=
  let bucket_name := ev.bucketName
  let object_key := env.unquotePlus ev.objectKey
  if bucket_name = "" ∨ object_key = "" then ⟨400, st, [], []⟩
  else
    match s3_get_object st bucket_name object_key with
    | none => ⟨404, st, [], []⟩
    | some transcription_data =>
      match extractTranscriptText transcription_data with
      | none => ⟨500, st, [], []⟩
      | some transcript_text =>
        if transcript_text = "" then ⟨400, st, [], []⟩
        else
          let text_bytes := utf8Len transcript_text
          let analysis_id := analysisIdOf env object_key
          if text_bytes ≤ SYNC_API_LIMIT_BYTES then
            process_synchronous_analysis env transcript_text analysis_id object_key bucket_name st
          else
            process_asynchronous_analysis env transcript_text analysis_id object_key bucket_name st

end SentimentAnalysis

/-! ## Completion Join & Aggregator — src/comprehend_job_completion/app.py -/

namespace ComprehendJobCompletion

/-- Raw S3 object bytes as seen by `read_comprehend_output`: UTF-8 text,
gzipped UTF-8 text, or bytes that are neither (gzip and UTF-8 decoding both
fail on them). -/
inductive RawContent where
  | plain (s : String) : RawContent
  | gzipped (s : String) : RawContent
  | binary : RawContent

/-- `try: content = gzip.decompress(content) except: pass` — a failed
decompression leaves the content as it was. -/
def gunzipAttempt : RawContent → RawContent
  | .gzipped s => .plain s
  | c => c

/-- `content.decode('utf-8')`; `none` models the raised `UnicodeDecodeError`. -/
def decodeUtf8 : RawContent → Option String
  | .plain s => some s
  | _ => none

/-- `results[0] if len(results) == 1 else results`: unwrap a singleton
record list, keep the ordered sequence otherwise. -/
def normalizeRecords : List Json → Json
  | [r] => r
  | rs => .arr rs

/-- External collaborators of the Completion Join: the wall clock, the
Comprehend describe-job API (returning the `JobName` and output `S3Uri`
fields; `none` models a raised call), the S3 listing and raw reads of the
engine-owned output location, and `json.loads` (`none` models the raised
parse error). -/
structure Env where
  nowIso : String
  describe_sentiment_detection_job : String → Option (String × String)
  describe_entities_detection_job : String → Option (String × String)
  describe_key_phrases_detection_job : String → Option (String × String)
  list_objects_v2 : String → String → List String
  get_raw_object : String → String → Option RawContent
  json_loads : String → Option Json

/-- `read_comprehend_output`: locate the first listed object whose key ends
in `.out` or `.gz` under the job's output location, attempt decompression,
parse one JSON record per line, unwrap singletons; every failure path
returns `{}` instead of raising. -/
def read_comprehend_output (env : Env) (s3_uri : String) : Json :=
  let parsed := parseS3Uri s3_uri
  let output_files :=
    (env.list_objects_v2 parsed.1 parsed.2).filter
      (fun key => pyEndsWith key ".out" || pyEndsWith key ".gz")
  match output_files with
  | [] => Json.obj []
  | output_key :: _ =>
    match env.get_raw_object parsed.1 output_key with
    | none => Json.obj []
    | some content0 =>
      match decodeUtf8 (gunzipAttempt content0) with
      | none => Json.obj []
      | some body =>
        let lines := pySplit (pyStrip body) '\n'
        let nonblank := lines.filter (fun l => ¬ pyStrip l = "")
        match nonblank.mapM env.json_loads with
        | none => Json.obj []
        | some results => normalizeRecords results

/-- `process_sentiment_job`: describe the job, read its normalized output,
decode the analysis id by `job_name.replace('sentiment-', '')`, write the
facet's result marker.  `none` models the raised describe call (the writes
themselves come after every raising call). -/
def process_sentiment_job (env : Env) (st : Store) (job_id : String) :
    Option (String × Store) :=
  match env.describe_sentiment_detection_job job_id with
  | none => none
  | some (job_name, output_location) =>
    let results := read_comprehend_output env output_location
    let analysis_id := pyReplace job_name "sentiment-" ""
    let output_key := SENTIMENT_PREFIX ++ analysis_id ++ "-sentiment-result.json"
    some (analysis_id, s3_put_object st BUCKET_NAME output_key results)

/-- `process_entities_job`, decoding with `replace('entities-', '')`. -/
def process_entities_job (env : Env) (st : Store) (job_id : String) :
    Option (String × Store) :=
  match env.describe_entities_detection_job job_id with
  | none => none
  | some (job_name, output_location) =>
    let results := read_comprehend_output env output_location
    let analysis_id := pyReplace job_name "entities-" ""
    let output_key := SENTIMENT_PREFIX ++ analysis_id ++ "-entities-result.json"
    some (analysis_id, s3_put_object st BUCKET_NAME output_key results)

/-- `process_key_phrases_job`, decoding with `replace('key-phrases-', '')`. -/
def process_key_phrases_job (env : Env) (st : Store) (job_id : String) :
    Option (String × Store) :=
  match env.describe_key_phrases_detection_job job_id with
  | none => none
  | some (job_name, output_location) =>
    let results := read_comprehend_output env output_location
    let analysis_id := pyReplace job_name "key-phrases-" ""
    let output_key := SENTIMENT_PREFIX ++ analysis_id ++ "-keyphrases-result.json"
    some (analysis_id, s3_put_object st BUCKET_NAME output_key results)

/-- `aggregate_results_if_complete`: probe the three marker objects; when
and only when all three exist, read them plus the metadata record and write
the aggregate object.  Returns the success flag and the resulting store. -/
def aggregate_results_if_complete (env : Env) (st : Store) (analysis_id : String) :
    Bool × Store :=
  if analysis_id = "" then (false, st)
  else
    let sentiment_key := SENTIMENT_PREFIX ++ analysis_id ++ "-sentiment-result.json"
    let entities_key := SENTIMENT_PREFIX ++ analysis_id ++ "-entities-result.json"
    let keyphrases_key := SENTIMENT_PREFIX ++ analysis_id ++ "-keyphrases-result.json"
    let sentiment_exists := object_exists st BUCKET_NAME sentiment_key
    let entities_exists := object_exists st BUCKET_NAME entities_key
    let keyphrases_exists := object_exists st BUCKET_NAME keyphrases_key
    if ¬ (sentiment_exists && entities_exists && keyphrases_exists) = true then (false, st)
    else
      let sentiment_data := read_json_from_s3 st BUCKET_NAME sentiment_key
      let entities_data := read_json_from_s3 st BUCKET_NAME entities_key
      let keyphrases_data := read_json_from_s3 st BUCKET_NAME keyphrases_key
      let metadata_key := SENTIMENT_PREFIX ++ analysis_id ++ "-metadata.json"
      let metadata :=
        if object_exists st BUCKET_NAME metadata_key then
          read_json_from_s3 st BUCKET_NAME metadata_key
        else Json.obj []
      let aggregated_results : Json := Json.obj
        [ ("analysisId", .str analysis_id),
          ("timestamp", .str env.nowIso),
          ("analysisType", .str "asynchronous"),
          ("transcriptionFile", jget metadata "transcriptionFile" (.str "")),
          ("textLength", jget metadata "textLength" (.num 0)),
          ("textBytes", jget metadata "textBytes" (.num 0)),
          ("sentiment", sentiment_data),
          ("entities", entities_data),
          ("keyPhrases", keyphrases_data),
          ("metadata", metadata) ]
      let output_key := SENTIMENT_PREFIX ++ analysis_id ++ "-analysis.json"
      (true, s3_put_object st BUCKET_NAME output_key aggregated_results)

/-- The job-completion EventBridge event fields this handler reads
(`detail.JobId`, `detail.JobStatus`, `detail-type`; missing fields are
the empty string, matching `.get(..., '')`). -/
structure CEvent where
  jobId : String
  jobStatus : String
  detailType : String

/-- After a facet's job was processed: on the raised path report 500 with
the pre-call store; otherwise run the aggregation check (whose own
try/except never lets it raise) and report 200. -/
def finishJob (env : Env) : Option (String × Store) → Store → Nat × Store
  | none, st0 => (500, st0)
  | some (analysis_id, st1), _ => (200, (aggregate_results_if_complete env st1 analysis_id).2)

/-- `lambda_handler` of the Completion Join: reject events without a JobId,
skip non-COMPLETED jobs, dispatch on the `detail-type` substring, then
re-check completion and aggregate. -/
def lambda_handler (env : Env) (ev : CEvent) (st : Store) : Nat × Store :=
  if ev.jobId = "" then (400, st)
  else if ¬ ev.jobStatus = "COMPLETED" then (200, st)
  else if strContains ev.detailType "Sentiment" then
    finishJob env (process_sentiment_job env st ev.jobId) st
  else if strContains ev.detailType "Entities" then
    finishJob env (process_entities_job env st ev.jobId) st
  else if strContains ev.detailType "Key Phrases" then
    finishJob env (process_key_phrases_job env st ev.jobId) st
  else (400, st)

/-- The three analytical facets. -/
inductive Facet where
  | sentiment : Facet
  | entities : Facet
  | keyPhrases : Facet
deriving DecidableEq

/-- The facet-specific job-name front piece the Analysis Router prepends
when it starts the facet's job. -/
def jobFacetTag : Facet → String
  | .sentiment => "sentiment-"
  | .entities => "entities-"
  | .keyPhrases => "key-phrases-"

/-- The job name the Analysis Router gives the facet's analytical job
(see `process_asynchronous_analysis`). -/
def encodeJobName (f : Facet) (analysis_id : String) : String :=
  jobFacetTag f ++ analysis_id

/-- The Completion Join's decode of an analysis id from an external job
name: `job_name.replace('<facet tag>', '')`. -/
def decodeJobName (f : Facet) (job_name : String) : String :=
  pyReplace job_name (jobFacetTag f) ""

/-- The facet's result-marker key suffix. -/
def facetMarkerTail : Facet → String
  | .sentiment => "-sentiment-result.json"
  | .entities => "-entities-result.json"
  | .keyPhrases => "-keyphrases-result.json"

/-- The facet's result-marker key for an analysis id. -/
def markerKey (analysis_id : String) (f : Facet) : String :=
  SENTIMENT_PREFIX ++ analysis_id ++ facetMarkerTail f

/-- The number of the three result markers present for an analysis id. -/
def markersPresent (st : Store) (analysis_id : String) : Nat :=
  (if object_exists st BUCKET_NAME (markerKey analysis_id .sentiment) then 1 else 0) +
  (if object_exists st BUCKET_NAME (markerKey analysis_id .entities) then 1 else 0) +
  (if object_exists st BUCKET_NAME (markerKey analysis_id .keyPhrases) then 1 else 0)

/-- The aggregate-result key for an analysis id. -/
def aggregateKey (analysis_id : String) : String :=
  SENTIMENT_PREFIX ++ analysis_id ++ "-analysis.json"

/-- The metadata-record key for an analysis id. -/
def metadataKey (analysis_id : String) : String :=
  SENTIMENT_PREFIX ++ analysis_id ++ "-metadata.json"

/-- Sequential processing of a list of completion events, threading the
store. -/
def runEvents (env : Env) (st : Store) : List CEvent → Store
  | [] => st
  | e :: rest => runEvents env (lambda_handler env e st).2 rest

/-- The aggregate body `aggregate_results_if_complete` assembles, as a
function of the three marker contents and the metadata record. -/
def aggBodyOf (nowIso analysis_id : String) (sJ eJ kJ metadata : Json) : Json :=
  Json.obj
    [ ("analysisId", .str analysis_id),
      ("timestamp", .str nowIso),
      ("analysisType", .str "asynchronous"),
      ("transcriptionFile", jget metadata "transcriptionFile" (.str "")),
      ("textLength", jget metadata "textLength" (.num 0)),
      ("textBytes", jget metadata "textBytes" (.num 0)),
      ("sentiment", sJ),
      ("entities", eJ),
      ("keyPhrases", kJ),
      ("metadata", metadata) ]

/-- The facet the handler's `detail-type` dispatch selects. -/
def facetOfDetailType (dt : String) : Option Facet :=
  if strContains dt "Sentiment" then some .sentiment
  else if strContains dt "Entities" then some .entities
  else if strContains dt "Key Phrases" then some .keyPhrases
  else none

/-- The describe-job call the handler uses for each facet. -/
def describeOf (env : Env) : Facet → (String → Option (String × String))
  | .sentiment => env.describe_sentiment_detection_job
  | .entities => env.describe_entities_detection_job
  | .keyPhrases => env.describe_key_phrases_detection_job

end ComprehendJobCompletion

/-! ## Transcript Relay — src/process_transcription/app.py -/

namespace ProcessTranscription

/-- The fields of `get_transcription_job`'s response this handler reads
(`Transcript.TranscriptFileUri` and `Media.MediaFileUri`; a missing field
is the empty string, matching the chained `.get(..., '')`). -/
structure JobInfo where
  transcriptFileUri : String
  mediaFileUri : String

/-- External collaborators of the Transcript Relay: the Transcribe
describe-job API (`none` models a raised call) and whether the single
`put_object` copying the transcript into the pipeline bucket raises (a
transient S3 failure; the source catches it and continues). -/
structure Env where
  get_transcription_job : String → Option JobInfo
  copyPutRaises : Bool

/-- The Transcribe job-completion event fields this handler reads
(`detail.TranscriptionJobName`, `detail.TranscriptionJobStatus`). -/
structure TEvent where
  jobName : String
  jobStatus : String

/-- `lambda_handler` of the Transcript Relay: reject events without a job
name, no-op with 200 on any non-COMPLETED status, resolve the transcript
location from the describe-job API, fetch it (the head probe and the
content read are both reads of the same stored object here), copy it into
the pipeline bucket, and report 200 even when that copy raises. -/
def lambda_handler (env : Env) (ev : TEvent) (st : Store) : Nat × Store :=
  if ev.jobName = "" then (400, st)
  else if ¬ ev.jobStatus = "COMPLETED" then (200, st)
  else
    match env.get_transcription_job ev.jobName with
    | none => (500, st)
    | some job_details =>
      if job_details.transcriptFileUri = "" then (404, st)
      else
        let parsed := parseS3Uri job_details.transcriptFileUri
        match s3_get_object st parsed.1 parsed.2 with
        | none => (404, st)
        | some transcript_content =>
          let destination_key := "transcriptions/" ++ ev.jobName ++ ".json"
          if env.copyPutRaises then (200, st)
          else (200, s3_put_object st BUCKET_NAME destination_key transcript_content)

end ProcessTranscription

/-! ## Concrete fixtures (sample environments, stores and documents used to
instantiate the theorems below on closed inputs) -/

/-- A Transcribe output document carrying one transcript text. -/
def sampleTranscript (text : String) : Json :=
  Json.obj
    [("results", Json.obj
      [("transcripts", Json.arr [Json.obj [("transcript", Json.str text)]])])]

/-- A Completion Join environment in which every external call raises and
every listing is empty. -/
def wCjcEnvTrivial : ComprehendJobCompletion.Env where
  nowIso := "2024-01-01T12:00:00Z"
  describe_sentiment_detection_job := fun _ => none
  describe_entities_detection_job := fun _ => none
  describe_key_phrases_detection_job := fun _ => none
  list_objects_v2 := fun _ _ => []
  get_raw_object := fun _ _ => none
  json_loads := fun _ => none

/-- An Analysis Router environment in which all Comprehend calls succeed. -/
def wSaEnv : SentimentAnalysis.Env where
  nowStamp := "20240101-120000"
  nowIso := "2024-01-01T12:00:00Z"
  unquotePlus := fun s => s
  detect_sentiment := fun _ =>
    some (Json.obj [("Sentiment", Json.str "POSITIVE"),
                    ("SentimentScore", Json.obj [("Positive", Json.num 1)])])
  detect_entities := fun _ => some (Json.obj [("Entities", Json.arr [])])
  detect_key_phrases := fun _ => some (Json.obj [("KeyPhrases", Json.arr [])])
  start_sentiment_detection_job := fun _ => some "sjob"
  start_entities_detection_job := fun _ => some "ejob"
  start_key_phrases_detection_job := fun _ => some "kjob"

/-- A 5001-byte ASCII text, just over the synchronous API limit. -/
def wLongText : String := ⟨List.replicate 5001 'a'⟩

/-- A Transcript Relay environment whose describe call knows one job and
whose copy write raises. -/
def wPtEnvOk : ProcessTranscription.Env where
  get_transcription_job := fun n =>
    if n = "job1" then some ⟨"s3://tbucket/out/tr1.json", "s3://tbucket/ep1.m4a"⟩
    else none
  copyPutRaises := true

/-- A store holding one finished transcript document. -/
def wTranscriptStore : Store :=
  [(("tbucket", "out/tr1.json"), sampleTranscript "hello world")]

/-- A Completion Join environment describing the three facet jobs of the
unit `ep1`, whose output listings are all empty. -/
def wCjcEnvC4 : ComprehendJobCompletion.Env where
  nowIso := "2024-01-02T00:00:00Z"
  describe_sentiment_detection_job := fun j =>
    if j = "js" then some ("sentiment-ep1", "s3://yerttle-tours/comprehend-output/ep1/")
    else none
  describe_entities_detection_job := fun j =>
    if j = "je" then some ("entities-ep1", "s3://yerttle-tours/comprehend-output/ep1/")
    else none
  describe_key_phrases_detection_job := fun j =>
    if j = "jk" then some ("key-phrases-ep1", "s3://yerttle-tours/comprehend-output/ep1/")
    else none
  list_objects_v2 := fun _ _ => []
  get_raw_object := fun _ _ => none
  json_loads := fun _ => none

/-- The external job ids of the three facet jobs in the `wCjcEnvC4`
scenario. -/
def wC4jid : ComprehendJobCompletion.Facet → String
  | .sentiment => "js"
  | .entities => "je"
  | .keyPhrases => "jk"

/-- EventBridge detail-types for the three facet completion events. -/
def wC4dt : ComprehendJobCompletion.Facet → String
  | .sentiment => "Comprehend Sentiment Analysis Job State Change"
  | .entities => "Comprehend Entities Detection Job State Change"
  | .keyPhrases => "Comprehend Key Phrases Detection Job State Change"

/-- The engine output location of each facet job in the `wCjcEnvC4`
scenario. -/
def wC4uri : ComprehendJobCompletion.Facet → String :=
  fun _ => "s3://yerttle-tours/comprehend-output/ep1/"

/-- A Completion Join environment describing the three facet jobs of a unit
whose analysis id is the adversarial string `sentiment-a`. -/
def wCjcEnvC4x : ComprehendJobCompletion.Env where
  nowIso := "2024-01-02T00:00:00Z"
  describe_sentiment_detection_job := fun j =>
    if j = "js" then some ("sentiment-sentiment-a", "s3://yerttle-tours/comprehend-output/sa/")
    else none
  describe_entities_detection_job := fun j =>
    if j = "je" then some ("entities-sentiment-a", "s3://yerttle-tours/comprehend-output/sa/")
    else none
  describe_key_phrases_detection_job := fun j =>
    if j = "jk" then some ("key-phrases-sentiment-a", "s3://yerttle-tours/comprehend-output/sa/")
    else none
  list_objects_v2 := fun _ _ => []
  get_raw_object := fun _ _ => none
  json_loads := fun _ => none

/-- A Completion Join environment whose sentiment job has a single
gzipped one-record output file. -/
def wCjcEnvOut : ComprehendJobCompletion.Env where
  nowIso := "2024-01-03T00:00:00Z"
  describe_sentiment_detection_job := fun j =>
    if j = "jid1" then some ("sentiment-ep2", "s3://outb/comprehend-output/ep2/")
    else none
  describe_entities_detection_job := fun _ => none
  describe_key_phrases_detection_job := fun _ => none
  list_objects_v2 := fun b p =>
    if b = "outb" ∧ p = "comprehend-output/ep2/" then
      ["comprehend-output/ep2/a1b2.out"]
    else []
  get_raw_object := fun b k =>
    if b = "outb" ∧ k = "comprehend-output/ep2/a1b2.out" then
      some (.gzipped "rec1\n")
    else none
  json_loads := fun s =>
    if s = "rec1" then some (Json.obj [("Sentiment", Json.str "NEUTRAL")])
    else none

/-! ## Helper lemmas: strings -/

theorem data_append (s t : String) : (s ++ t).data = s.data ++ t.data := by
  cases s; cases t; rfl

theorem strAppend_left_cancel {s b c : String} (h : s ++ b = s ++ c) : b = c := by
  cases s; cases b; cases c
  have h2 := congrArg String.data h
  simp only [data_append] at h2
  exact congrArg String.mk (List.append_cancel_left h2)

theorem append_right_ne {b c : String} (s : String) (h : ¬ b = c) :
    ¬ (s ++ b = s ++ c) :=
  fun he => h (strAppend_left_cancel he)

theorem append_ne_of_head_ne {p q : String} {cp cq : Char}
    (hp : p.data.head? = some cp) (hq : q.data.head? = some cq)
    (hne : ¬ cp = cq) (x y : String) : ¬ (p ++ x = q ++ y) := by
  intro h
  have hd := congrArg (fun s => s.data.head?) h
  simp only [data_append, List.head?_append, hp, hq, Option.or] at hd
  exact hne (Option.some.inj hd)

theorem pyReplaceCore_no_occur (pat rep : List Char) :
    ∀ (fuel : Nat) (l : List Char), ¬ pat <:+: l →
      pyReplaceCore pat rep fuel l = l := by
  intro fuel
  induction fuel with
  | zero => intro l _; rfl
  | succ n ih =>
    intro l hno
    cases l with
    | nil => rfl
    | cons c rest =>
      rw [pyReplaceCore]
      have hpre : pat.isPrefixOf (c :: rest) = false := by
        cases hb : pat.isPrefixOf (c :: rest) with
        | false => rfl
        | true => exact absurd (List.isPrefixOf_iff_prefix.mp hb).isInfix hno
      rw [hpre]
      simp only [Bool.false_eq_true, if_false]
      have : ¬ pat <:+: rest := fun hr => hno (List.infix_cons hr)
      rw [ih rest this]

theorem pyReplaceCore_strip (t : Char) (ts rest : List Char) (fuel : Nat)
    (hno : ¬ (t :: ts) <:+: rest) :
    pyReplaceCore (t :: ts) [] (fuel + 1) ((t :: ts) ++ rest) = rest := by
  rw [List.cons_append, pyReplaceCore]
  have hpre : (t :: ts).isPrefixOf (t :: (ts ++ rest)) = true :=
    List.isPrefixOf_iff_prefix.mpr ⟨rest, by simp⟩
  rw [hpre]
  simp only [if_true, List.nil_append]
  have hdrop : (t :: (ts ++ rest)).drop (t :: ts).length = rest := by
    simp only [List.length_cons, List.drop_succ_cons]
    exact List.drop_left ts rest
  rw [hdrop, pyReplaceCore_no_occur _ _ _ _ hno]

/-- When the analysis id does not contain the facet tag as a substring,
stripping the tag with Python `replace` from `tag ++ id` gives back `id`. -/
theorem pyReplace_tag_append (tag id : String) (htag : ¬ tag.data = [])
    (hno : ¬ tag.data <:+: id.data) : pyReplace (tag ++ id) tag "" = id := by
  cases id with
  | mk iddata =>
    unfold pyReplace
    apply congrArg String.mk
    have hemp : ("" : String).data = [] := by decide
    rw [hemp, data_append]
    cases htagd : tag.data with
    | nil => exact absurd htagd htag
    | cons t ts =>
      have hid : ({ data := iddata } : String).data = iddata := rfl
      rw [hid] at hno ⊢
      rw [htagd] at hno
      have hflen : ((t :: ts) ++ iddata).length = ((ts ++ iddata).length) + 1 := by
        simp [List.length_append, List.length_cons]
      rw [hflen]
      exact pyReplaceCore_strip t ts iddata ((ts ++ iddata).length) hno

/-! ## Helper lemmas: the store -/

theorem get_put_same (st : Store) (b k : String) (v : Json) :
    s3_get_object (s3_put_object st b k v) b k = some v := by
  simp [s3_put_object, s3_get_object]

theorem get_put_ne {k' k : String} (st : Store) (b' b : String) (v : Json)
    (hne : ¬ k' = k) :
    s3_get_object (s3_put_object st b' k' v) b k = s3_get_object st b k := by
  show (if b' = b ∧ k' = k then some v else s3_get_object st b k) = s3_get_object st b k
  rw [if_neg]
  rintro ⟨-, h⟩
  exact hne h

theorem exists_put_same (st : Store) (b k : String) (v : Json) :
    object_exists (s3_put_object st b k v) b k = true := by
  simp [object_exists, get_put_same]

theorem exists_put_ne {k' k : String} (st : Store) (b' b : String) (v : Json)
    (hne : ¬ k' = k) :
    object_exists (s3_put_object st b' k' v) b k = object_exists st b k := by
  simp [object_exists, get_put_ne st b' b v hne]

/-! ## Helper lemmas: key distinctness -/

namespace ComprehendJobCompletion

theorem markerKey_ne_markerKey (id : String) {f g : Facet} (h : ¬ f = g) :
    ¬ markerKey id f = markerKey id g := by
  apply append_right_ne
  cases f <;> cases g <;> first | exact absurd rfl h | decide

theorem metadataKey_ne_markerKey (id : String) (f : Facet) :
    ¬ metadataKey id = markerKey id f := by
  apply append_right_ne
  cases f <;> decide

theorem aggregateKey_ne_markerKey (id : String) (f : Facet) :
    ¬ aggregateKey id = markerKey id f := by
  apply append_right_ne
  cases f <;> decide

theorem aggregateKey_ne_metadataKey (id : String) :
    ¬ aggregateKey id = metadataKey id := by
  apply append_right_ne
  decide

theorem sentimentNs_ne_inputNs (x y : String) :
    ¬ (SENTIMENT_PREFIX ++ x = "comprehend-input/" ++ y) :=
  @append_ne_of_head_ne SENTIMENT_PREFIX "comprehend-input/" 's' 'c'
    (by decide) (by decide) (by decide) x y

theorem inputNs_ne_sentimentNs (x y : String) :
    ¬ ("comprehend-input/" ++ x = SENTIMENT_PREFIX ++ y) :=
  @append_ne_of_head_ne "comprehend-input/" SENTIMENT_PREFIX 'c' 's'
    (by decide) (by decide) (by decide) x y

theorem inputKey_ne_markerKey (x y : String) (f : Facet) :
    ¬ ("comprehend-input/" ++ x ++ ".txt" = markerKey y f) := by
  unfold markerKey
  rw [String.append_assoc, String.append_assoc]
  exact inputNs_ne_sentimentNs _ _

theorem aggregateKey_ne_inputKey (x y : String) :
    ¬ (aggregateKey x = "comprehend-input/" ++ y ++ ".txt") := by
  unfold aggregateKey
  rw [String.append_assoc, String.append_assoc]
  exact sentimentNs_ne_inputNs _ _

theorem metadataKey_ne_inputKey (x y : String) :
    ¬ (metadataKey x = "comprehend-input/" ++ y ++ ".txt") := by
  unfold metadataKey
  rw [String.append_assoc, String.append_assoc]
  exact sentimentNs_ne_inputNs _ _

/-! ## Helper lemmas: the aggregation step -/

theorem agg_incomplete (env : Env) (st : Store) (id : String)
    (h : markersPresent st id < 3) :
    aggregate_results_if_complete env st id = (false, st) := by
  by_cases hid : id = ""
  · simp [aggregate_results_if_complete, hid]
  · simp only [markersPresent, markerKey, facetMarkerTail] at h
    cases hs : object_exists st BUCKET_NAME (SENTIMENT_PREFIX ++ id ++ "-sentiment-result.json") <;>
      cases he : object_exists st BUCKET_NAME (SENTIMENT_PREFIX ++ id ++ "-entities-result.json") <;>
        cases hk : object_exists st BUCKET_NAME (SENTIMENT_PREFIX ++ id ++ "-keyphrases-result.json") <;>
          simp_all [aggregate_results_if_complete, hid]

theorem agg_complete (env : Env) (st : Store) (id : String) (hid : ¬ id = "")
    {cs ce ck : Json}
    (hs : s3_get_object st BUCKET_NAME (markerKey id .sentiment) = some cs)
    (he : s3_get_object st BUCKET_NAME (markerKey id .entities) = some ce)
    (hk : s3_get_object st BUCKET_NAME (markerKey id .keyPhrases) = some ck) :
    aggregate_results_if_complete env st id =
      (true, s3_put_object st BUCKET_NAME (aggregateKey id)
        (aggBodyOf env.nowIso id cs ce ck
          (read_json_from_s3 st BUCKET_NAME (metadataKey id)))) := by
  have hs' : s3_get_object st BUCKET_NAME (SENTIMENT_PREFIX ++ id ++ "-sentiment-result.json") = some cs := hs
  have he' : s3_get_object st BUCKET_NAME (SENTIMENT_PREFIX ++ id ++ "-entities-result.json") = some ce := he
  have hk' : s3_get_object st BUCKET_NAME (SENTIMENT_PREFIX ++ id ++ "-keyphrases-result.json") = some ck := hk
  cases hg : s3_get_object st BUCKET_NAME (SENTIMENT_PREFIX ++ id ++ "-metadata.json") with
  | none =>
    simp [aggregate_results_if_complete, hid, object_exists, hs', he', hk', hg,
      read_json_from_s3, metadataKey, aggregateKey, aggBodyOf]
  | some v =>
    simp [aggregate_results_if_complete, hid, object_exists, hs', he', hk', hg,
      read_json_from_s3, metadataKey, aggregateKey, aggBodyOf]

/-! ## Helper lemmas: the completion handler -/

theorem handler_step (env : Env) (ev : CEvent) (st : Store) (f : Facet)
    (jn uri : String)
    (hjid : ¬ ev.jobId = "")
    (hstat : ev.jobStatus = "COMPLETED")
    (hdt : facetOfDetailType ev.detailType = some f)
    (hdesc : describeOf env f ev.jobId = some (jn, uri)) :
    lambda_handler env ev st =
      (200, (aggregate_results_if_complete env
        (s3_put_object st BUCKET_NAME (markerKey (decodeJobName f jn) f)
          (read_comprehend_output env uri))
        (decodeJobName f jn)).2) := by
  unfold lambda_handler
  rw [if_neg hjid, hstat]
  rw [if_neg (by simp)]
  unfold facetOfDetailType at hdt
  split_ifs at hdt with h1 h2 h3
  · cases Option.some.inj hdt
    have hdesc' : env.describe_sentiment_detection_job ev.jobId = some (jn, uri) := hdesc
    rw [h1]
    unfold process_sentiment_job
    rw [hdesc']
    simp [finishJob, markerKey, facetMarkerTail, decodeJobName, jobFacetTag]
  · cases Option.some.inj hdt
    have hdesc' : env.describe_entities_detection_job ev.jobId = some (jn, uri) := hdesc
    rw [if_neg (by simp [h1]), h2]
    unfold process_entities_job
    rw [hdesc']
    simp [finishJob, markerKey, facetMarkerTail, decodeJobName, jobFacetTag]
  · cases Option.some.inj hdt
    have hdesc' : env.describe_key_phrases_detection_job ev.jobId = some (jn, uri) := hdesc
    rw [if_neg (by simp [h1]), if_neg (by simp [h2]), h3]
    unfold process_key_phrases_job
    rw [hdesc']
    simp [finishJob, markerKey, facetMarkerTail, decodeJobName, jobFacetTag]

theorem markersPresent_lt3 (st : Store) (id : String) (g : Facet)
    (hg : object_exists st BUCKET_NAME (markerKey id g) = false) :
    markersPresent st id < 3 := by
  unfold markersPresent
  cases g <;> simp only [hg, Bool.false_eq_true, if_false] <;> split_ifs <;> omega

end ComprehendJobCompletion

theorem utf8Len_wLongText : utf8Len wLongText = 5001 := by
  have h : charUtf8Size 'a' = 1 := by decide
  show (List.map charUtf8Size (List.replicate 5001 'a')).sum = 5001
  rw [List.map_replicate, h, List.sum_replicate, smul_eq_mul, Nat.mul_one]

/-- A write under a non-marker key leaves the marker count of an
analysis id with no markers at zero. -/
theorem markersPresent_put_nonmarker (st : Store) (aid k : String) (v : Json)
    (hk : ∀ f, ¬ k = ComprehendJobCompletion.markerKey aid f)
    (hm : ∀ f : ComprehendJobCompletion.Facet,
      s3_get_object st BUCKET_NAME (ComprehendJobCompletion.markerKey aid f) = none) :
    ComprehendJobCompletion.markersPresent (s3_put_object st BUCKET_NAME k v) aid = 0 := by
  unfold ComprehendJobCompletion.markersPresent
  rw [exists_put_ne st _ _ _ (hk .sentiment), exists_put_ne st _ _ _ (hk .entities),
    exists_put_ne st _ _ _ (hk .keyPhrases)]
  simp [object_exists, hm]

/-! ## The claims -/

/-- C1: for every environment, store and analysisId, the Completion Join's
aggregation step writes the AggregateResult only when ResultMarkers for all
three facets exist at the moment of its existence probes: whenever fewer
than three markers are present it returns False and leaves the store
exactly as it was, performing no aggregate write. -/
theorem claim_C1_join_requires_all_markers
    (env : ComprehendJobCompletion.Env) (st : Store) (analysisId : String)
    (h : ComprehendJobCompletion.markersPresent st analysisId < 3) :
    ComprehendJobCompletion.aggregate_results_if_complete env st analysisId = (false, st) :=
  ComprehendJobCompletion.agg_incomplete env st analysisId h

/-- Witness for C1 on a concrete input: an empty store has zero markers for
`ep1`, and the aggregation step reports False and writes nothing. -/
theorem claim_C1_witness :
    ComprehendJobCompletion.markersPresent [] "ep1" < 3 ∧
    ComprehendJobCompletion.aggregate_results_if_complete wCjcEnvTrivial [] "ep1" = (false, []) :=
  ⟨by decide, claim_C1_join_requires_all_markers wCjcEnvTrivial [] "ep1" (by decide)⟩

/-- C4 counterexample: for the analysisId `sentiment-a` (reachable from a
transcript file named `sentiment-a.json` modulo timestamp), processing the
unit's three facet completion events in order writes no AggregateResult at
all: the Python-`replace` decode scatters the markers across the ids `a`
and `sentiment-a` (two markers only), so the event that completes the third
facet does not write the aggregate, contradicting the claim as stated. -/
theorem claim_C4_counterexample :
    ComprehendJobCompletion.markersPresent
      (ComprehendJobCompletion.runEvents wCjcEnvC4x []
        [⟨"js", "COMPLETED", wC4dt .sentiment⟩,
         ⟨"je", "COMPLETED", wC4dt .entities⟩,
         ⟨"jk", "COMPLETED", wC4dt .keyPhrases⟩]) "sentiment-a" = 2 ∧
    object_exists
      (ComprehendJobCompletion.runEvents wCjcEnvC4x []
        [⟨"js", "COMPLETED", wC4dt .sentiment⟩,
         ⟨"je", "COMPLETED", wC4dt .entities⟩,
         ⟨"jk", "COMPLETED", wC4dt .keyPhrases⟩])
      BUCKET_NAME (ComprehendJobCompletion.aggregateKey "sentiment-a") = false ∧
    object_exists
      (ComprehendJobCompletion.runEvents wCjcEnvC4x []
        [⟨"js", "COMPLETED", wC4dt .sentiment⟩,
         ⟨"je", "COMPLETED", wC4dt .entities⟩,
         ⟨"jk", "COMPLETED", wC4dt .keyPhrases⟩])
      BUCKET_NAME (ComprehendJobCompletion.aggregateKey "a") = false := by
  refine ⟨by decide, by decide, by decide⟩

/-- C4 (amended): for every analysisId that contains no facet job-name tag
as a substring, with the three completion events processed sequentially in
any of the six orders (any pairwise-distinct facets f1, f2, f3), the
re-check after each completion writes no AggregateResult after the first
and second events, and the event completing the third facet writes it; the
stored aggregate equals one fixed body — a function of the environment, the
id and the initial store only — hence its content is identical across all
six orderings. -/
theorem claim_C4_amended_order_independent_join
    (env : ComprehendJobCompletion.Env) (st0 : Store) (id : String)
    (jid dt uri : ComprehendJobCompletion.Facet → String)
    (hid : ¬ id = "")
    (htag : ∀ f, ¬ (ComprehendJobCompletion.jobFacetTag f).data <:+: id.data)
    (hjid : ∀ f, ¬ jid f = "")
    (hdesc : ∀ f, ComprehendJobCompletion.describeOf env f (jid f) =
      some (ComprehendJobCompletion.encodeJobName f id, uri f))
    (hdt : ∀ f, ComprehendJobCompletion.facetOfDetailType (dt f) = some f)
    (hm : ∀ f, s3_get_object st0 BUCKET_NAME (ComprehendJobCompletion.markerKey id f) = none)
    (hagg : s3_get_object st0 BUCKET_NAME (ComprehendJobCompletion.aggregateKey id) = none)
    (f1 f2 f3 : ComprehendJobCompletion.Facet)
    (h12 : ¬ f1 = f2) (h13 : ¬ f1 = f3) (h23 : ¬ f2 = f3) :
    object_exists
      (ComprehendJobCompletion.runEvents env st0 [⟨jid f1, "COMPLETED", dt f1⟩])
      BUCKET_NAME (ComprehendJobCompletion.aggregateKey id) = false ∧
    object_exists
      (ComprehendJobCompletion.runEvents env st0
        [⟨jid f1, "COMPLETED", dt f1⟩, ⟨jid f2, "COMPLETED", dt f2⟩])
      BUCKET_NAME (ComprehendJobCompletion.aggregateKey id) = false ∧
    s3_get_object
      (ComprehendJobCompletion.runEvents env st0
        [⟨jid f1, "COMPLETED", dt f1⟩, ⟨jid f2, "COMPLETED", dt f2⟩,
         ⟨jid f3, "COMPLETED", dt f3⟩])
      BUCKET_NAME (ComprehendJobCompletion.aggregateKey id) =
      some (ComprehendJobCompletion.aggBodyOf env.nowIso id
        (ComprehendJobCompletion.read_comprehend_output env (uri .sentiment))
        (ComprehendJobCompletion.read_comprehend_output env (uri .entities))
        (ComprehendJobCompletion.read_comprehend_output env (uri .keyPhrases))
        (read_json_from_s3 st0 BUCKET_NAME (ComprehendJobCompletion.metadataKey id))) := by
  have hdec : ∀ f, ComprehendJobCompletion.decodeJobName f
      (ComprehendJobCompletion.encodeJobName f id) = id := fun f =>
    pyReplace_tag_append _ id (by cases f <;> decide) (htag f)
  have hstep : ∀ (f : ComprehendJobCompletion.Facet) (s : Store),
      ComprehendJobCompletion.lambda_handler env ⟨jid f, "COMPLETED", dt f⟩ s =
        (200, (ComprehendJobCompletion.aggregate_results_if_complete env
          (s3_put_object s BUCKET_NAME (ComprehendJobCompletion.markerKey id f)
            (ComprehendJobCompletion.read_comprehend_output env (uri f))) id).2) := by
    intro f s
    have h := ComprehendJobCompletion.handler_step env ⟨jid f, "COMPLETED", dt f⟩ s f
      (ComprehendJobCompletion.encodeJobName f id) (uri f) (hjid f) rfl (hdt f) (hdesc f)
    rw [hdec f] at h
    exact h
  have hne21 : ¬ ComprehendJobCompletion.markerKey id f2 = ComprehendJobCompletion.markerKey id f1 :=
    ComprehendJobCompletion.markerKey_ne_markerKey id (fun h => h12 h.symm)
  have hne31 : ¬ ComprehendJobCompletion.markerKey id f3 = ComprehendJobCompletion.markerKey id f1 :=
    ComprehendJobCompletion.markerKey_ne_markerKey id (fun h => h13 h.symm)
  have hne32 : ¬ ComprehendJobCompletion.markerKey id f3 = ComprehendJobCompletion.markerKey id f2 :=
    ComprehendJobCompletion.markerKey_ne_markerKey id (fun h => h23 h.symm)
  have hne13 : ¬ ComprehendJobCompletion.markerKey id f1 = ComprehendJobCompletion.markerKey id f3 :=
    ComprehendJobCompletion.markerKey_ne_markerKey id h13
  have hne23 : ¬ ComprehendJobCompletion.markerKey id f2 = ComprehendJobCompletion.markerKey id f3 :=
    ComprehendJobCompletion.markerKey_ne_markerKey id h23
  have haveA : (ComprehendJobCompletion.lambda_handler env ⟨jid f1, "COMPLETED", dt f1⟩ st0).2 =
      s3_put_object st0 BUCKET_NAME (ComprehendJobCompletion.markerKey id f1)
        (ComprehendJobCompletion.read_comprehend_output env (uri f1)) := by
    rw [hstep f1 st0]
    rw [ComprehendJobCompletion.agg_incomplete env _ id
      (ComprehendJobCompletion.markersPresent_lt3 _ id f2 (by
        rw [exists_put_ne st0 _ _ _ (ComprehendJobCompletion.markerKey_ne_markerKey id h12)]
        simp [object_exists, hm f2]))]
  have haveB : (ComprehendJobCompletion.lambda_handler env ⟨jid f2, "COMPLETED", dt f2⟩
        (s3_put_object st0 BUCKET_NAME (ComprehendJobCompletion.markerKey id f1)
          (ComprehendJobCompletion.read_comprehend_output env (uri f1)))).2 =
      s3_put_object
        (s3_put_object st0 BUCKET_NAME (ComprehendJobCompletion.markerKey id f1)
          (ComprehendJobCompletion.read_comprehend_output env (uri f1)))
        BUCKET_NAME (ComprehendJobCompletion.markerKey id f2)
        (ComprehendJobCompletion.read_comprehend_output env (uri f2)) := by
    rw [hstep f2 _]
    rw [ComprehendJobCompletion.agg_incomplete env _ id
      (ComprehendJobCompletion.markersPresent_lt3 _ id f3 (by
        rw [exists_put_ne _ _ _ _ hne23, exists_put_ne st0 _ _ _ hne13]
        simp [object_exists, hm f3]))]
  have hcover : ∀ g : ComprehendJobCompletion.Facet, g = f1 ∨ g = f2 ∨ g = f3 := by
    intro g
    cases g <;> cases f1 <;> cases f2 <;> cases f3 <;> simp_all
  have hget3 : ∀ g : ComprehendJobCompletion.Facet,
      s3_get_object
        (s3_put_object
          (s3_put_object
            (s3_put_object st0 BUCKET_NAME (ComprehendJobCompletion.markerKey id f1)
              (ComprehendJobCompletion.read_comprehend_output env (uri f1)))
            BUCKET_NAME (ComprehendJobCompletion.markerKey id f2)
            (ComprehendJobCompletion.read_comprehend_output env (uri f2)))
          BUCKET_NAME (ComprehendJobCompletion.markerKey id f3)
          (ComprehendJobCompletion.read_comprehend_output env (uri f3)))
        BUCKET_NAME (ComprehendJobCompletion.markerKey id g) =
        some (ComprehendJobCompletion.read_comprehend_output env (uri g)) := by
    intro g
    rcases hcover g with hg | hg | hg <;> subst hg
    · rw [get_put_ne _ _ _ _ hne31, get_put_ne _ _ _ _ hne21, get_put_same]
    · rw [get_put_ne _ _ _ _ hne32, get_put_same]
    · rw [get_put_same]
  have hmeta3 :
      read_json_from_s3
        (s3_put_object
          (s3_put_object
            (s3_put_object st0 BUCKET_NAME (ComprehendJobCompletion.markerKey id f1)
              (ComprehendJobCompletion.read_comprehend_output env (uri f1)))
            BUCKET_NAME (ComprehendJobCompletion.markerKey id f2)
            (ComprehendJobCompletion.read_comprehend_output env (uri f2)))
          BUCKET_NAME (ComprehendJobCompletion.markerKey id f3)
          (ComprehendJobCompletion.read_comprehend_output env (uri f3)))
        BUCKET_NAME (ComprehendJobCompletion.metadataKey id) =
      read_json_from_s3 st0 BUCKET_NAME (ComprehendJobCompletion.metadataKey id) := by
    unfold read_json_from_s3
    rw [get_put_ne _ _ _ _ (fun h => ComprehendJobCompletion.metadataKey_ne_markerKey id f3 h.symm),
      get_put_ne _ _ _ _ (fun h => ComprehendJobCompletion.metadataKey_ne_markerKey id f2 h.symm),
      get_put_ne st0 _ _ _ (fun h => ComprehendJobCompletion.metadataKey_ne_markerKey id f1 h.symm)]
  have haveC : (ComprehendJobCompletion.lambda_handler env ⟨jid f3, "COMPLETED", dt f3⟩
        (s3_put_object
          (s3_put_object st0 BUCKET_NAME (ComprehendJobCompletion.markerKey id f1)
            (ComprehendJobCompletion.read_comprehend_output env (uri f1)))
          BUCKET_NAME (ComprehendJobCompletion.markerKey id f2)
          (ComprehendJobCompletion.read_comprehend_output env (uri f2)))).2 =
      s3_put_object
        (s3_put_object
          (s3_put_object
            (s3_put_object st0 BUCKET_NAME (ComprehendJobCompletion.markerKey id f1)
              (ComprehendJobCompletion.read_comprehend_output env (uri f1)))
            BUCKET_NAME (ComprehendJobCompletion.markerKey id f2)
            (ComprehendJobCompletion.read_comprehend_output env (uri f2)))
          BUCKET_NAME (ComprehendJobCompletion.markerKey id f3)
          (ComprehendJobCompletion.read_comprehend_output env (uri f3)))
        BUCKET_NAME (ComprehendJobCompletion.aggregateKey id)
        (ComprehendJobCompletion.aggBodyOf env.nowIso id
          (ComprehendJobCompletion.read_comprehend_output env (uri .sentiment))
          (ComprehendJobCompletion.read_comprehend_output env (uri .entities))
          (ComprehendJobCompletion.read_comprehend_output env (uri .keyPhrases))
          (read_json_from_s3 st0 BUCKET_NAME (ComprehendJobCompletion.metadataKey id))) := by
    rw [hstep f3 _]
    rw [ComprehendJobCompletion.agg_complete env _ id hid
      (hget3 .sentiment) (hget3 .entities) (hget3 .keyPhrases), hmeta3]
  refine ⟨?_, ?_, ?_⟩
  · simp only [ComprehendJobCompletion.runEvents]
    rw [haveA, exists_put_ne st0 _ _ _
      (fun h => ComprehendJobCompletion.aggregateKey_ne_markerKey id f1 h.symm)]
    simp [object_exists, hagg]
  · simp only [ComprehendJobCompletion.runEvents]
    rw [haveA, haveB,
      exists_put_ne _ _ _ _
        (fun h => ComprehendJobCompletion.aggregateKey_ne_markerKey id f2 h.symm),
      exists_put_ne st0 _ _ _
        (fun h => ComprehendJobCompletion.aggregateKey_ne_markerKey id f1 h.symm)]
    simp [object_exists, hagg]
  · simp only [ComprehendJobCompletion.runEvents]
    rw [haveA, haveB, haveC, get_put_same]

/-- Witness for the amended C4 on a concrete input: the unit `ep1`
processed in the order keyPhrases, sentiment, entities aggregates exactly
on the third event, with the canonical aggregate body. -/
theorem claim_C4_witness :
    object_exists
      (ComprehendJobCompletion.runEvents wCjcEnvC4 []
        [⟨"jk", "COMPLETED", wC4dt .keyPhrases⟩])
      BUCKET_NAME (ComprehendJobCompletion.aggregateKey "ep1") = false ∧
    object_exists
      (ComprehendJobCompletion.runEvents wCjcEnvC4 []
        [⟨"jk", "COMPLETED", wC4dt .keyPhrases⟩, ⟨"js", "COMPLETED", wC4dt .sentiment⟩])
      BUCKET_NAME (ComprehendJobCompletion.aggregateKey "ep1") = false ∧
    s3_get_object
      (ComprehendJobCompletion.runEvents wCjcEnvC4 []
        [⟨"jk", "COMPLETED", wC4dt .keyPhrases⟩, ⟨"js", "COMPLETED", wC4dt .sentiment⟩,
         ⟨"je", "COMPLETED", wC4dt .entities⟩])
      BUCKET_NAME (ComprehendJobCompletion.aggregateKey "ep1") =
      some (ComprehendJobCompletion.aggBodyOf "2024-01-02T00:00:00Z" "ep1"
        (Json.obj []) (Json.obj []) (Json.obj []) (Json.obj [])) :=
  claim_C4_amended_order_independent_join wCjcEnvC4 [] "ep1" wC4jid wC4dt wC4uri
    (by decide) (fun f => by cases f <;> decide) (fun f => by cases f <;> decide)
    (fun f => by cases f <;> rfl) (fun f => by cases f <;> decide)
    (fun f => rfl) rfl
    .keyPhrases .sentiment .entities (by decide) (by decide) (by decide)

/-- C5 counterexample: the Completion Join's decode is Python
`str.replace`, which removes every occurrence of the facet tag, so for the
analysisId `sentiment-a` the decode of the encoded job name
`sentiment-sentiment-a` yields `a`, not the original id. -/
theorem claim_C5_counterexample :
    ¬ (ComprehendJobCompletion.decodeJobName .sentiment
        (ComprehendJobCompletion.encodeJobName .sentiment "sentiment-a") = "sentiment-a") := by
  decide

/-- C5 (amended): for every analysisId that does not contain the facet's
job-name tag as a substring, the Completion Join's prefix-stripping decode
is a left inverse of the Analysis Router's job-name encoding. -/
theorem claim_C5_decode_left_inverse_amended
    (f : ComprehendJobCompletion.Facet) (analysisId : String)
    (h : ¬ (ComprehendJobCompletion.jobFacetTag f).data <:+: analysisId.data) :
    ComprehendJobCompletion.decodeJobName f
      (ComprehendJobCompletion.encodeJobName f analysisId) = analysisId := by
  unfold ComprehendJobCompletion.decodeJobName ComprehendJobCompletion.encodeJobName
  exact pyReplace_tag_append _ analysisId (by cases f <;> decide) h

/-- Witness for the amended C5 on a concrete input: the id
`ep1-20240101-120000` contains no facet tag, and decoding its sentiment job
name recovers it. -/
theorem claim_C5_witness :
    ¬ (ComprehendJobCompletion.jobFacetTag .sentiment).data <:+: ("ep1-20240101-120000" : String).data ∧
    ComprehendJobCompletion.decodeJobName .sentiment
      (ComprehendJobCompletion.encodeJobName .sentiment "ep1-20240101-120000") = "ep1-20240101-120000" :=
  ⟨by decide, claim_C5_decode_left_inverse_amended .sentiment "ep1-20240101-120000" (by decide)⟩

/-- C7: the Transcript Relay (a) treats every non-COMPLETED job status as a
deliberate no-op — for every environment and store it returns 200 and the
unchanged store, so it performs no store writes and (being independent of
the environment) no further external calls; and (b) when the transcript is
fetched successfully but the copy into the pipeline namespace raises, it
still returns 200 with the store unchanged. -/
theorem claim_C7_relay_ignores_and_tolerates :
    (∀ (env : ProcessTranscription.Env) (ev : ProcessTranscription.TEvent) (st : Store),
      ¬ ev.jobName = "" → ¬ ev.jobStatus = "COMPLETED" →
      ProcessTranscription.lambda_handler env ev st = (200, st)) ∧
    (∀ (env : ProcessTranscription.Env) (ev : ProcessTranscription.TEvent) (st : Store)
        (job_details : ProcessTranscription.JobInfo) (doc : Json),
      ¬ ev.jobName = "" → ev.jobStatus = "COMPLETED" →
      env.get_transcription_job ev.jobName = some job_details →
      ¬ job_details.transcriptFileUri = "" →
      s3_get_object st (parseS3Uri job_details.transcriptFileUri).1
        (parseS3Uri job_details.transcriptFileUri).2 = some doc →
      env.copyPutRaises = true →
      ProcessTranscription.lambda_handler env ev st = (200, st)) := by
  constructor
  · intro env ev st hname hstat
    unfold ProcessTranscription.lambda_handler
    rw [if_neg hname, if_pos hstat]
  · intro env ev st job_details doc hname hstat hjob huri hget hcopy
    unfold ProcessTranscription.lambda_handler
    rw [if_neg hname, hstat, if_neg (by simp), hjob]
    simp only [if_neg huri, hget, hcopy, if_true]

/-- Witness for C7 on concrete inputs: a FAILED completion event is a 200
no-op, and a COMPLETED one whose copy write raises still yields 200 with
the store unchanged. -/
theorem claim_C7_witness :
    ProcessTranscription.lambda_handler wPtEnvOk ⟨"job1", "FAILED"⟩ [] = (200, []) ∧
    ProcessTranscription.lambda_handler wPtEnvOk ⟨"job1", "COMPLETED"⟩ wTranscriptStore =
      (200, wTranscriptStore) :=
  ⟨claim_C7_relay_ignores_and_tolerates.1 wPtEnvOk ⟨"job1", "FAILED"⟩ [] (by decide) (by decide),
   claim_C7_relay_ignores_and_tolerates.2 wPtEnvOk ⟨"job1", "COMPLETED"⟩ wTranscriptStore
     ⟨"s3://tbucket/out/tr1.json", "s3://tbucket/ep1.m4a"⟩ (sampleTranscript "hello world")
     (by decide) rfl rfl (by decide) rfl rfl⟩

/-- C8: for every environment and store, a completion event whose job
identifier field is missing or empty makes the Completion Join handler
return status 400 with the store exactly as it was — and since the result
is the same for every environment and store, the handler performs no store
reads, no store writes, and no external service calls on this path. -/
theorem claim_C8_missing_job_id_rejected
    (env : ComprehendJobCompletion.Env) (ev : ComprehendJobCompletion.CEvent) (st : Store)
    (h : ev.jobId = "") :
    ComprehendJobCompletion.lambda_handler env ev st = (400, st) := by
  unfold ComprehendJobCompletion.lambda_handler
  rw [if_pos h]

/-- Witness for C8 on a concrete input: an event with an empty JobId is
rejected with 400 and an unchanged store. -/
theorem claim_C8_witness :
    ComprehendJobCompletion.lambda_handler wCjcEnvTrivial ⟨"", "COMPLETED", "Sentiment"⟩ [] = (400, []) :=
  claim_C8_missing_job_id_rejected wCjcEnvTrivial ⟨"", "COMPLETED", "Sentiment"⟩ [] rfl

/-- C6: normalization of engine output parses the located body as one JSON
record per line and unwraps to a single object exactly when one record was
parsed, keeping the ordered sequence otherwise; the value produced from a
single-line JSONL body is identical to `normalizeRecords` applied to the
same record pre-wrapped in a one-element sequence. -/
theorem claim_C6_singleton_unwrap
    (env : ComprehendJobCompletion.Env) (uri k body : String)
    (content : ComprehendJobCompletion.RawContent) (rs : List Json)
    (hfiles : ((env.list_objects_v2 (parseS3Uri uri).1 (parseS3Uri uri).2).filter
        (fun key => pyEndsWith key ".out" || pyEndsWith key ".gz")) = [k])
    (hget : env.get_raw_object (parseS3Uri uri).1 k = some content)
    (hdec : ComprehendJobCompletion.decodeUtf8
        (ComprehendJobCompletion.gunzipAttempt content) = some body)
    (hrecs : ((pySplit (pyStrip body) '\n').filter
        (fun l => ¬ pyStrip l = "")).mapM env.json_loads = some rs) :
    ComprehendJobCompletion.read_comprehend_output env uri =
      ComprehendJobCompletion.normalizeRecords rs ∧
    (∀ v : Json, rs = [v] →
      ComprehendJobCompletion.read_comprehend_output env uri = v) ∧
    (∀ rs' : List Json, ¬ rs'.length = 1 →
      ComprehendJobCompletion.normalizeRecords rs' = .arr rs') := by
  have h1 : ComprehendJobCompletion.read_comprehend_output env uri =
      ComprehendJobCompletion.normalizeRecords rs := by
    simp only [ComprehendJobCompletion.read_comprehend_output, hfiles, hget, hdec, hrecs]
  refine ⟨h1, ?_, ?_⟩
  · intro v hv
    rw [hv] at h1
    exact h1
  · intro rs' h
    match rs' with
    | [] => rfl
    | [a] => exact absurd rfl h
    | a :: b :: t => rfl

/-- Witness for C6 on a concrete input: a gzipped single-record output body
normalizes to the unwrapped record itself, which coincides with the
singleton-sequence normalization. -/
theorem claim_C6_witness :
    ComprehendJobCompletion.read_comprehend_output wCjcEnvOut "s3://outb/comprehend-output/ep2/" =
      Json.obj [("Sentiment", Json.str "NEUTRAL")] ∧
    ComprehendJobCompletion.normalizeRecords [Json.obj [("Sentiment", Json.str "NEUTRAL")]] =
      Json.obj [("Sentiment", Json.str "NEUTRAL")] :=
  ⟨(claim_C6_singleton_unwrap wCjcEnvOut "s3://outb/comprehend-output/ep2/"
      "comprehend-output/ep2/a1b2.out" "rec1\n" (.gzipped "rec1\n")
      [Json.obj [("Sentiment", Json.str "NEUTRAL")]]
      rfl rfl rfl rfl).2.1 _ rfl,
    rfl⟩

/-- C10: when no object with a recognized output suffix exists under the
job's output location — or the raw read raises, the bytes decode to no
text, or a line fails to parse — read_comprehend_output returns the empty
result instead of raising, and process_sentiment_job still writes the
facet's ResultMarker containing that empty result, so the marker's
existence counts toward the join. -/
theorem claim_C10_empty_output_still_marks
    (env : ComprehendJobCompletion.Env) (st : Store) (job_id jn uri : String)
    (hdesc : env.describe_sentiment_detection_job job_id = some (jn, uri))
    (hfiles : ((env.list_objects_v2 (parseS3Uri uri).1 (parseS3Uri uri).2).filter
        (fun key => pyEndsWith key ".out" || pyEndsWith key ".gz")) = []) :
    ComprehendJobCompletion.read_comprehend_output env uri = Json.obj [] ∧
    ComprehendJobCompletion.process_sentiment_job env st job_id =
      some (pyReplace jn "sentiment-" "",
        s3_put_object st BUCKET_NAME
          (SENTIMENT_PREFIX ++ pyReplace jn "sentiment-" "" ++ "-sentiment-result.json")
          (Json.obj [])) ∧
    object_exists
      (s3_put_object st BUCKET_NAME
        (SENTIMENT_PREFIX ++ pyReplace jn "sentiment-" "" ++ "-sentiment-result.json")
        (Json.obj []))
      BUCKET_NAME
      (ComprehendJobCompletion.markerKey (pyReplace jn "sentiment-" "") .sentiment) = true ∧
    (∀ (env2 : ComprehendJobCompletion.Env) (uri2 k : String) (ks : List String),
      ((env2.list_objects_v2 (parseS3Uri uri2).1 (parseS3Uri uri2).2).filter
          (fun key => pyEndsWith key ".out" || pyEndsWith key ".gz")) = k :: ks →
      env2.get_raw_object (parseS3Uri uri2).1 k = none →
      ComprehendJobCompletion.read_comprehend_output env2 uri2 = Json.obj []) ∧
    (∀ (env2 : ComprehendJobCompletion.Env) (uri2 k : String) (ks : List String),
      ((env2.list_objects_v2 (parseS3Uri uri2).1 (parseS3Uri uri2).2).filter
          (fun key => pyEndsWith key ".out" || pyEndsWith key ".gz")) = k :: ks →
      env2.get_raw_object (parseS3Uri uri2).1 k =
        some ComprehendJobCompletion.RawContent.binary →
      ComprehendJobCompletion.read_comprehend_output env2 uri2 = Json.obj []) ∧
    (∀ (env2 : ComprehendJobCompletion.Env) (uri2 k body : String) (ks : List String),
      ((env2.list_objects_v2 (parseS3Uri uri2).1 (parseS3Uri uri2).2).filter
          (fun key => pyEndsWith key ".out" || pyEndsWith key ".gz")) = k :: ks →
      env2.get_raw_object (parseS3Uri uri2).1 k =
        some (ComprehendJobCompletion.RawContent.plain body) →
      ((pySplit (pyStrip body) '\n').filter
        (fun l => ¬ pyStrip l = "")).mapM env2.json_loads = none →
      ComprehendJobCompletion.read_comprehend_output env2 uri2 = Json.obj []) := by
  have h1 : ComprehendJobCompletion.read_comprehend_output env uri = Json.obj [] := by
    simp only [ComprehendJobCompletion.read_comprehend_output, hfiles]
  refine ⟨h1, ?_, ?_, ?_, ?_, ?_⟩
  · simp only [ComprehendJobCompletion.process_sentiment_job, hdesc, h1]
  · exact exists_put_same st BUCKET_NAME _ (Json.obj [])
  · intro env2 uri2 k2 ks hf hg
    simp only [ComprehendJobCompletion.read_comprehend_output, hf, hg]
  · intro env2 uri2 k2 ks hf hg
    simp only [ComprehendJobCompletion.read_comprehend_output, hf, hg,
      ComprehendJobCompletion.gunzipAttempt, ComprehendJobCompletion.decodeUtf8]
  · intro env2 uri2 k2 body ks hf hg hp
    simp only [ComprehendJobCompletion.read_comprehend_output, hf, hg,
      ComprehendJobCompletion.gunzipAttempt, ComprehendJobCompletion.decodeUtf8, hp]

/-- C2: a transcript whose extracted text is at most 5000 UTF-8 bytes takes
the inline path: the handler attempts the three synchronous detections (in
order), writes exactly one AggregateResult at
`sentiment/(analysisId)-analysis.json` whose `analysisType` is
`synchronous`, returns status 200, attempts no job start, and leaves the
Metadata-record and staged-text keys untouched. -/
theorem claim_C2_inline_path
    (env : SentimentAnalysis.Env) (ev : SentimentAnalysis.S3Event) (st : Store)
    (okey aid text : String) (doc sresp eresp kresp : Json)
    (hokey : okey = env.unquotePlus ev.objectKey)
    (haid : aid = SentimentAnalysis.analysisIdOf env okey)
    (hb : ¬ ev.bucketName = "")
    (hk : ¬ okey = "")
    (hdoc : s3_get_object st ev.bucketName okey = some doc)
    (htext : SentimentAnalysis.extractTranscriptText doc = some text)
    (hne : ¬ text = "")
    (hlen : utf8Len text ≤ 5000)
    (hds : env.detect_sentiment text = some sresp)
    (hde : env.detect_entities text = some eresp)
    (hdk : env.detect_key_phrases text = some kresp) :
    (SentimentAnalysis.lambda_handler env ev st).statusCode = 200 ∧
    (SentimentAnalysis.lambda_handler env ev st).syncDetectCalls =
      ["detect_sentiment", "detect_entities", "detect_key_phrases"] ∧
    (SentimentAnalysis.lambda_handler env ev st).jobStartsAttempted = [] ∧
    (∃ aggregate : Json,
      (SentimentAnalysis.lambda_handler env ev st).store =
        ((BUCKET_NAME, SENTIMENT_PREFIX ++ aid ++ "-analysis.json"), aggregate) :: st ∧
      jget aggregate "analysisType" Json.null = Json.str "synchronous") ∧
    s3_get_object (SentimentAnalysis.lambda_handler env ev st).store BUCKET_NAME
        (ComprehendJobCompletion.metadataKey aid) =
      s3_get_object st BUCKET_NAME (ComprehendJobCompletion.metadataKey aid) ∧
    s3_get_object (SentimentAnalysis.lambda_handler env ev st).store BUCKET_NAME
        ("comprehend-input/" ++ aid ++ ".txt") =
      s3_get_object st BUCKET_NAME ("comprehend-input/" ++ aid ++ ".txt") := by
  subst hokey
  subst haid
  have hout : SentimentAnalysis.lambda_handler env ev st =
      SentimentAnalysis.process_synchronous_analysis env text
        (SentimentAnalysis.analysisIdOf env (env.unquotePlus ev.objectKey))
        (env.unquotePlus ev.objectKey) ev.bucketName st := by
    unfold SentimentAnalysis.lambda_handler SentimentAnalysis.SYNC_API_LIMIT_BYTES
    rw [if_neg (by rintro (h | h); exact hb h; exact hk h)]
    simp only [hdoc, htext]
    rw [if_neg hne, if_pos hlen]
  rw [hout]
  unfold SentimentAnalysis.process_synchronous_analysis
  rw [hds, hde, hdk]
  refine ⟨rfl, rfl, rfl, ⟨_, rfl, by rfl⟩, ?_, ?_⟩
  · exact get_put_ne st BUCKET_NAME BUCKET_NAME _
      (ComprehendJobCompletion.aggregateKey_ne_metadataKey _)
  · exact get_put_ne st BUCKET_NAME BUCKET_NAME _
      (ComprehendJobCompletion.aggregateKey_ne_inputKey _ _)

/-- Witness for C2 on a concrete input: an 11-byte transcript is analyzed
inline with one aggregate write and no job starts. -/
theorem claim_C2_witness :
    (SentimentAnalysis.lambda_handler wSaEnv ⟨"pipe", "transcriptions/ep1.json"⟩
      [(("pipe", "transcriptions/ep1.json"), sampleTranscript "hello world")]).statusCode = 200 ∧
    (SentimentAnalysis.lambda_handler wSaEnv ⟨"pipe", "transcriptions/ep1.json"⟩
      [(("pipe", "transcriptions/ep1.json"), sampleTranscript "hello world")]).jobStartsAttempted = [] :=
  ⟨(claim_C2_inline_path wSaEnv ⟨"pipe", "transcriptions/ep1.json"⟩
      [(("pipe", "transcriptions/ep1.json"), sampleTranscript "hello world")]
      "transcriptions/ep1.json" "ep1-20240101-120000" "hello world"
      (sampleTranscript "hello world") (Json.obj [("Sentiment", Json.str "POSITIVE"),
        ("SentimentScore", Json.obj [("Positive", Json.num 1)])])
      (Json.obj [("Entities", Json.arr [])]) (Json.obj [("KeyPhrases", Json.arr [])])
      rfl rfl (by decide) (by decide) rfl rfl (by decide) (by decide) rfl rfl rfl).1,
   (claim_C2_inline_path wSaEnv ⟨"pipe", "transcriptions/ep1.json"⟩
      [(("pipe", "transcriptions/ep1.json"), sampleTranscript "hello world")]
      "transcriptions/ep1.json" "ep1-20240101-120000" "hello world"
      (sampleTranscript "hello world") (Json.obj [("Sentiment", Json.str "POSITIVE"),
        ("SentimentScore", Json.obj [("Positive", Json.num 1)])])
      (Json.obj [("Entities", Json.arr [])]) (Json.obj [("KeyPhrases", Json.arr [])])
      rfl rfl (by decide) (by decide) rfl rfl (by decide) (by decide) rfl rfl rfl).2.2.1⟩

/-- C3: a transcript whose extracted text exceeds 5000 UTF-8 bytes takes
the job path: the handler writes the staged text at
`comprehend-input/(analysisId).txt`, attempts exactly the three analytical
job starts, writes exactly one Metadata record at the metadata key, makes
no synchronous detection call, writes zero ResultMarkers, and returns
status 202. -/
theorem claim_C3_job_path
    (env : SentimentAnalysis.Env) (ev : SentimentAnalysis.S3Event) (st : Store)
    (okey aid text : String) (doc : Json)
    (hokey : okey = env.unquotePlus ev.objectKey)
    (haid : aid = SentimentAnalysis.analysisIdOf env okey)
    (hb : ¬ ev.bucketName = "")
    (hk : ¬ okey = "")
    (hdoc : s3_get_object st ev.bucketName okey = some doc)
    (htext : SentimentAnalysis.extractTranscriptText doc = some text)
    (hne : ¬ text = "")
    (hlen : 5000 < utf8Len text) :
    (SentimentAnalysis.lambda_handler env ev st).statusCode = 202 ∧
    (SentimentAnalysis.lambda_handler env ev st).jobStartsAttempted =
      ["sentiment-" ++ aid, "entities-" ++ aid, "key-phrases-" ++ aid] ∧
    (SentimentAnalysis.lambda_handler env ev st).syncDetectCalls = [] ∧
    (∃ metadata : Json,
      (SentimentAnalysis.lambda_handler env ev st).store =
        ((BUCKET_NAME, ComprehendJobCompletion.metadataKey aid), metadata) ::
        ((BUCKET_NAME, "comprehend-input/" ++ aid ++ ".txt"), Json.str text) :: st) ∧
    (∀ f : ComprehendJobCompletion.Facet,
      s3_get_object (SentimentAnalysis.lambda_handler env ev st).store BUCKET_NAME
          (ComprehendJobCompletion.markerKey aid f) =
        s3_get_object st BUCKET_NAME (ComprehendJobCompletion.markerKey aid f)) := by
  subst hokey
  subst haid
  have hout : SentimentAnalysis.lambda_handler env ev st =
      SentimentAnalysis.process_asynchronous_analysis env text
        (SentimentAnalysis.analysisIdOf env (env.unquotePlus ev.objectKey))
        (env.unquotePlus ev.objectKey) ev.bucketName st := by
    unfold SentimentAnalysis.lambda_handler SentimentAnalysis.SYNC_API_LIMIT_BYTES
    rw [if_neg (by rintro (h | h); exact hb h; exact hk h)]
    simp only [hdoc, htext]
    rw [if_neg hne, if_neg (Nat.not_le.mpr hlen)]
  rw [hout]
  unfold SentimentAnalysis.process_asynchronous_analysis
  refine ⟨rfl, rfl, rfl, ⟨_, rfl⟩, ?_⟩
  intro f
  exact (get_put_ne _ BUCKET_NAME BUCKET_NAME _
      (ComprehendJobCompletion.metadataKey_ne_markerKey _ f)).trans
    (get_put_ne st BUCKET_NAME BUCKET_NAME _
      (ComprehendJobCompletion.inputKey_ne_markerKey _ _ f))

/-- Witness for C3 on a concrete input: a 5001-byte transcript goes to the
job path with three job-start attempts and status 202. -/
theorem claim_C3_witness :
    (SentimentAnalysis.lambda_handler wSaEnv ⟨"pipe", "transcriptions/ep2.json"⟩
      [(("pipe", "transcriptions/ep2.json"), sampleTranscript wLongText)]).statusCode = 202 ∧
    (SentimentAnalysis.lambda_handler wSaEnv ⟨"pipe", "transcriptions/ep2.json"⟩
      [(("pipe", "transcriptions/ep2.json"), sampleTranscript wLongText)]).jobStartsAttempted =
      ["sentiment-ep2-20240101-120000", "entities-ep2-20240101-120000",
       "key-phrases-ep2-20240101-120000"] :=
  ⟨(claim_C3_job_path wSaEnv ⟨"pipe", "transcriptions/ep2.json"⟩
      [(("pipe", "transcriptions/ep2.json"), sampleTranscript wLongText)]
      "transcriptions/ep2.json" "ep2-20240101-120000" wLongText
      (sampleTranscript wLongText)
      rfl rfl (by decide) (by decide) rfl rfl (by decide)
      (by rw [utf8Len_wLongText]; omega)).1,
   (claim_C3_job_path wSaEnv ⟨"pipe", "transcriptions/ep2.json"⟩
      [(("pipe", "transcriptions/ep2.json"), sampleTranscript wLongText)]
      "transcriptions/ep2.json" "ep2-20240101-120000" wLongText
      (sampleTranscript wLongText)
      rfl rfl (by decide) (by decide) rfl rfl (by decide)
      (by rw [utf8Len_wLongText]; omega)).2.1⟩

/-- C9: the synchronous path writes its AggregateResult at the very key the
asynchronous aggregator uses, and does so while zero ResultMarkers and no
Metadata record exist for that analysisId — so the existence of an
AggregateResult for an analysisId does not imply that the three facet
ResultMarkers exist for it. -/
theorem claim_C9_sync_aggregate_without_markers
    (env : SentimentAnalysis.Env) (st : Store)
    (text aid tkey bname : String) (sresp eresp kresp : Json)
    (hds : env.detect_sentiment text = some sresp)
    (hde : env.detect_entities text = some eresp)
    (hdk : env.detect_key_phrases text = some kresp)
    (hm : ∀ f : ComprehendJobCompletion.Facet,
      s3_get_object st BUCKET_NAME (ComprehendJobCompletion.markerKey aid f) = none)
    (hmeta : s3_get_object st BUCKET_NAME (ComprehendJobCompletion.metadataKey aid) = none) :
    (SENTIMENT_PREFIX ++ aid ++ "-analysis.json" = ComprehendJobCompletion.aggregateKey aid) ∧
    object_exists
      (SentimentAnalysis.process_synchronous_analysis env text aid tkey bname st).store
      BUCKET_NAME (ComprehendJobCompletion.aggregateKey aid) = true ∧
    ComprehendJobCompletion.markersPresent
      (SentimentAnalysis.process_synchronous_analysis env text aid tkey bname st).store aid = 0 ∧
    object_exists
      (SentimentAnalysis.process_synchronous_analysis env text aid tkey bname st).store
      BUCKET_NAME (ComprehendJobCompletion.metadataKey aid) = false := by
  unfold SentimentAnalysis.process_synchronous_analysis
  rw [hds, hde, hdk]
  refine ⟨rfl, exists_put_same st BUCKET_NAME _ _, ?_, ?_⟩
  · exact markersPresent_put_nonmarker st aid _ _
      (fun f => ComprehendJobCompletion.aggregateKey_ne_markerKey aid f) hm
  · exact (exists_put_ne st BUCKET_NAME BUCKET_NAME _
      (ComprehendJobCompletion.aggregateKey_ne_metadataKey aid)).trans
      (by simp [object_exists, hmeta])

/-- Witness for C9 on a concrete input: from an empty store, an inline
analysis of `hi` yields an aggregate at the shared key with zero markers
and no metadata record. -/
theorem claim_C9_witness :
    object_exists
      (SentimentAnalysis.process_synchronous_analysis wSaEnv "hi" "ep1"
        "transcriptions/ep1.json" "pipe" []).store
      BUCKET_NAME (ComprehendJobCompletion.aggregateKey "ep1") = true ∧
    ComprehendJobCompletion.markersPresent
      (SentimentAnalysis.process_synchronous_analysis wSaEnv "hi" "ep1"
        "transcriptions/ep1.json" "pipe" []).store "ep1" = 0 :=
  ⟨(claim_C9_sync_aggregate_without_markers wSaEnv [] "hi" "ep1"
      "transcriptions/ep1.json" "pipe" _ _ _ rfl rfl rfl (fun _ => rfl) rfl).2.1,
   (claim_C9_sync_aggregate_without_markers wSaEnv [] "hi" "ep1"
      "transcriptions/ep1.json" "pipe" _ _ _ rfl rfl rfl (fun _ => rfl) rfl).2.2.1⟩

/-- Witness for C10 on a concrete input: the sentiment job of unit `ep1`
has an empty output listing, yet its marker is written with the empty
result. -/
theorem claim_C10_witness :
    ComprehendJobCompletion.read_comprehend_output wCjcEnvC4
      "s3://yerttle-tours/comprehend-output/ep1/" = Json.obj [] ∧
    ComprehendJobCompletion.process_sentiment_job wCjcEnvC4 [] "js" =
      some ("ep1", [((BUCKET_NAME, "sentiment/ep1-sentiment-result.json"), Json.obj [])]) :=
  ⟨(claim_C10_empty_output_still_marks wCjcEnvC4 [] "js" "sentiment-ep1"
      "s3://yerttle-tours/comprehend-output/ep1/" rfl rfl).1,
   (claim_C10_empty_output_still_marks wCjcEnvC4 [] "js" "sentiment-ep1"
      "s3://yerttle-tours/comprehend-output/ep1/" rfl rfl).2.1⟩

end YerttleAws
